import Mathlib

/-!
Verification of the type-declaration registry and code-generation contracts of
the swift-bridge IR (crates/swift-bridge-ir).

The registry (`TypeDeclarations`), the declaration variants
(`TypeDeclaration`, `SharedTypeDeclaration`, `OpaqueForeignTypeDeclaration`),
the use-site conversion `to_bridged_type`, the lookup helpers
(`get`, `get_with_type`) and the destructor symbol names
(`free_link_name`, `free_func_name`) are embedded from
`src/parse/type_declarations.rs`.

Supporting Rust types that live outside the provided sources
(`bridged_type.rs`: `SharedStruct`, `SharedEnum`, `BridgedType`, …;
`syn::Type`; the codegen engine) are modelled from the specification and
from the expected outputs recorded in `src/codegen/codegen_tests.rs`,
as noted on each definition.

Modelling conventions:
* `proc_macro2::Ident` and `syn` token renderings are `String`s.
* The `HashMap<String, TypeDeclaration>` field `decls` is an association
  list where `insert` prepends and `get` returns the first match, which is
  observationally identical to the hash map for `get` after any sequence of
  `insert`s (the map is never iterated; all iteration goes through `order`).
* `todo!()` (a Rust panic) is modelled by returning `none` at the outer
  `Option` of `get_with_type`, so `some r` means "returned normally with
  lookup result `r`" and `none` means "panicked".
-/

/-- Which side of the FFI boundary owns a declaration (`crate::parse::HostLang`). -/
inductive HostLang
  | rust
  | swift
deriving DecidableEq

/-- Modelled from the spec: the host-side representation flag of a shared
struct ("how the host side should lay out the value"); the concrete Rust
enum lives in `bridged_type.rs`, outside the provided sources. -/
inductive StructSwiftRepr
  | structRepr
  | classRepr
deriving DecidableEq

/-- Modelled from the spec: a shared by-value struct declaration
(`bridged_type.rs::SharedStruct`, outside the provided sources). The fields
listed here are exactly the ones `to_bridged_type` copies; the ordered field
list is modelled as a list of field names. -/
structure SharedStruct where
  name : String
  swift_repr : StructSwiftRepr
  fields : List String
  swift_name : Option String
  already_declared : Bool
deriving DecidableEq

/-- Modelled from the spec: a shared by-value enum declaration
(`bridged_type.rs::SharedEnum`, outside the provided sources), with its
ordered variant list modelled as a list of variant names. -/
structure SharedEnum where
  name : String
  variants : List String
deriving DecidableEq

/-- An opaque foreign type declaration
(`type_declarations.rs::OpaqueForeignTypeDeclaration`). `ty : Ident` is
modelled as a `String`; `generics : Vec<GenericParam>` (unused by codegen)
is modelled as a list of strings. -/
structure OpaqueForeignTypeDeclaration where
  ty : String
  host_lang : HostLang
  already_declared : Bool
  doc_comment : Option String
  generics : List String
deriving DecidableEq

/-- `type_declarations.rs::SharedTypeDeclaration`. -/
inductive SharedTypeDeclaration
  | Struct (s : SharedStruct)
  | Enum (e : SharedEnum)
deriving DecidableEq

/-- `type_declarations.rs::TypeDeclaration`. -/
inductive TypeDeclaration
  | Shared (s : SharedTypeDeclaration)
  | Opaque (o : OpaqueForeignTypeDeclaration)
deriving DecidableEq

instance : Inhabited TypeDeclaration :=
  ⟨TypeDeclaration.Opaque ⟨"", HostLang.rust, false, none, []⟩⟩

/-- Modelled from the spec: the use-site opaque node
(`bridged_type.rs::OpaqueForeignType`, outside the provided sources) built by
the `Opaque` arm of `to_bridged_type`; it carries the two use-site facts. -/
structure OpaqueForeignType where
  ty : String
  host_lang : HostLang
  reference : Bool
  mutable : Bool
deriving DecidableEq

/-- Modelled from the spec: `bridged_type.rs::SharedType`
(outside the provided sources). -/
inductive SharedType
  | Struct (s : SharedStruct)
  | Enum (e : SharedEnum)
deriving DecidableEq

/-- Modelled from the spec: `bridged_type.rs::CustomBridgedType`
(outside the provided sources). -/
inductive CustomBridgedType
  | Shared (s : SharedType)
  | Opaque (o : OpaqueForeignType)
deriving DecidableEq

/-- Modelled from the spec: `bridged_type.rs::BridgedType` (outside the
provided sources). Only the `Foreign` arm is embedded, since it is the only
arm `to_bridged_type` can produce; the builtin arms (numerics, string,
option, vec) are irrelevant to the claims about declared types. -/
inductive BridgedType
  | Foreign (c : CustomBridgedType)
deriving DecidableEq

/-- `TypeDeclaration::to_bridged_type(reference, mutable)`: the `Shared`
arms rebuild the declaration's own facts field by field; only the `Opaque`
arm additionally attaches the two use-site flags. -/
def TypeDeclaration.to_bridged_type (d : TypeDeclaration) (reference : Bool)
    (mutable : Bool) : BridgedType :=
  match d with
  | TypeDeclaration.Shared (SharedTypeDeclaration.Struct shared_struct) =>
      BridgedType.Foreign (CustomBridgedType.Shared (SharedType.Struct
        ⟨shared_struct.name, shared_struct.swift_repr, shared_struct.fields,
          shared_struct.swift_name, shared_struct.already_declared⟩))
  | TypeDeclaration.Shared (SharedTypeDeclaration.Enum shared_enum) =>
      BridgedType.Foreign (CustomBridgedType.Shared (SharedType.Enum
        ⟨shared_enum.name, shared_enum.variants⟩))
  | TypeDeclaration.Opaque o =>
      BridgedType.Foreign (CustomBridgedType.Opaque
        ⟨o.ty, o.host_lang, reference, mutable⟩)

/-- `crate::SWIFT_BRIDGE_PREFIX`, the boundary prefix prepended to every
generated cross-boundary symbol (value documented by the comments in
`type_declarations.rs` and the expected strings in `codegen_tests.rs`). -/
def SWIFT_BRIDGE_PREFIX : String := "__swift_bridge__"

/-- The string-literal destructor symbol form built from a (prefix, type
name) pair, as in `format!("{}${}$_free", ...)`. -/
def mkFreeLinkName (p : String) (n : String) : String :=
  p ++ "$" ++ n ++ "$_free"

/-- The bare-identifier destructor symbol form built from a (prefix, type
name) pair, as in `format!("{}{}__free", ...)`. -/
def mkFreeFuncName (p : String) (n : String) : String :=
  p ++ n ++ "__free"

/-- `OpaqueForeignTypeDeclaration::free_link_name`:
`"__swift_bridge__$TypeName$_free"`. -/
def OpaqueForeignTypeDeclaration.free_link_name
    (d : OpaqueForeignTypeDeclaration) : String :=
  SWIFT_BRIDGE_PREFIX ++ "$" ++ d.ty ++ "$_free"

/-- `OpaqueForeignTypeDeclaration::free_func_name`:
`"__swift_bridge__TypeName__free"`. -/
def OpaqueForeignTypeDeclaration.free_func_name
    (d : OpaqueForeignTypeDeclaration) : String :=
  SWIFT_BRIDGE_PREFIX ++ d.ty ++ "__free"

/-- Lookup in the name-keyed store: first binding for the key wins
(the association-list model of `HashMap::get`). -/
def mapGet (m : List (String × TypeDeclaration)) (k : String) :
    Option TypeDeclaration :=
  match m with
  | [] => none
  | (k2, v) :: rest => if k2 = k then some v else mapGet rest k

/-- `type_declarations.rs::TypeDeclarations`: the registry, a name-keyed
store of declarations plus the separate insertion-order list. -/
structure TypeDeclarations where
  decls : List (String × TypeDeclaration)
  order : List String
deriving DecidableEq

/-- `TypeDeclarations::default()`: the empty registry. -/
def TypeDeclarations.empty : TypeDeclarations := ⟨[], []⟩

/-- `TypeDeclarations::get(type_name)`. -/
def TypeDeclarations.get (r : TypeDeclarations) (type_name : String) :
    Option TypeDeclaration :=
  mapGet r.decls type_name

/-- `TypeDeclarations::insert(type_name, ty)`: unconditionally stores the
binding in the map (the prepended pair shadows any earlier binding for the
same name, as `HashMap::insert` overwrites it) and pushes the name onto the
order list. There is no duplicate check and no error return. -/
def TypeDeclarations.insert (r : TypeDeclarations) (type_name : String)
    (ty : TypeDeclaration) : TypeDeclarations :=
  ⟨(type_name, ty) :: r.decls, r.order ++ [type_name]⟩

/-- `TypeDeclarations::types()`: map each name in the order list to its
stored declaration, unwrapping the lookup (`Option.get!` models
`.unwrap()`). -/
def TypeDeclarations.types (r : TypeDeclarations) : List TypeDeclaration :=
  r.order.map (fun ty => (mapGet r.decls ty).get!)

/-- Modelled from the spec: the error kind `DuplicateTypeName` of the
spec's §7 error taxonomy (no corresponding Rust value exists in
`type_declarations.rs`). -/
inductive InsertError
  | DuplicateTypeName
deriving DecidableEq

/-- Modelled from the spec (refinement reference for C1): the checked
insert the spec's §4.1 contract describes — "fails with `DuplicateTypeName`
if `name` already present; otherwise stores the declaration and appends
`name` to the order list". -/
def insert_checked (r : TypeDeclarations) (type_name : String)
    (ty : TypeDeclaration) : Except InsertError TypeDeclarations :=
  if (r.get type_name).isSome then Except.error InsertError.DuplicateTypeName
  else Except.ok (r.insert type_name ty)

/-- Building a registry by a sequence of `insert` calls from a given start. -/
def insertList (r : TypeDeclarations)
    (l : List (String × TypeDeclaration)) : TypeDeclarations :=
  l.foldl (fun acc p => acc.insert p.1 p.2) r

/-- Building a registry by a sequence of `insert` calls from empty. -/
def buildRegistry (l : List (String × TypeDeclaration)) : TypeDeclarations :=
  insertList TypeDeclarations.empty l

/-- Modelled from the spec: the shapes of a `syn::Type` expression reaching
`get_with_type` (`syn` is outside the provided sources). `reference` and
`path` are the two shapes the function matches; `tuple`, `slice` and `ptr`
stand for the remaining shapes that fall into the `todo!()` arm. -/
inductive RustType
  | reference (mutable : Bool) (elem : RustType)
  | path (name : String)
  | tuple (elems : List RustType)
  | slice (elem : RustType)
  | ptr (mutable : Bool) (elem : RustType)

/-- Modelled from the spec: `to_token_stream().to_string()` on a type
expression. A path renders as its name; exact spacing of the shapes that
never reach a registry lookup (the `todo!()` arm fires on them at top level,
and nothing is declared under a non-path rendering) is immaterial to the
claims, so `tuple` members are not recursed into. -/
def tokenString : RustType → String
  | RustType.reference m e =>
      "& " ++ (if m then "mut " else "") ++ tokenString e
  | RustType.path n => n
  | RustType.tuple _ => "(..)"
  | RustType.slice e => "[" ++ tokenString e ++ "]"
  | RustType.ptr m e =>
      (if m then "*mut " else "*const ") ++ tokenString e

/-- Whether a type expression is one of the two shapes `get_with_type`
handles (a reference or a plain path). -/
def RustType.isRefOrPath : RustType → Bool
  | RustType.reference _ _ => true
  | RustType.path _ => true
  | _ => false

/-- `TypeDeclarations::get_with_type(ty)`. The outer `Option` models
normal return (`some`) versus the `todo!("Handle other cases")` panic
(`none`); inside a normal return the lookup result itself is an `Option`. -/
def TypeDeclarations.get_with_type (r : TypeDeclarations) (ty : RustType) :
    Option (Option TypeDeclaration) :=
  match ty with
  | RustType.reference _ elem => some (r.get (tokenString elem))
  | RustType.path n => some (r.get (tokenString (RustType.path n)))
  | _ => none

/-- Modelled from the spec: a boundary function declared in an
`extern "Swift"` block of the bridge module — implemented on the host
(Swift) side, callable from the native (Rust) side — with a single by-value
argument named `arg` whose type is given by name, optionally gated behind a
crate feature (`#[cfg(feature = ...)]`). This is the exact shape exercised
by the two concrete scenarios of §8 and `codegen_tests.rs`. -/
structure BridgeFn where
  name : String
  argTypeName : String
  cfgFeature : Option String
deriving DecidableEq

/-- Modelled from the spec: the parsed bridge module the codegen engine
consumes — an ordered sequence of opaque type declarations and boundary
function declarations. -/
structure BridgeModule where
  typeDecls : List OpaqueForeignTypeDeclaration
  functions : List BridgeFn
deriving DecidableEq

/-- Modelled from the spec: one emitted item of native-side (Rust) glue.
`publicFnCall n aty callee carg` is
`pub fn n(arg: aty) ... unsafe ... callee(carg)`;
`foreignLink link decl aty` is an `extern "C"` declaration
`#[link_name = link] fn decl(arg: aty);`;
`ptrWrapperStruct t` is `#[repr(C)] pub struct t(*mut std::ffi::c_void);`;
`dropImpl t call` is `impl Drop for t` whose `drop` runs `unsafe ... call`. -/
inductive RustItem
  | publicFnCall (fnName : String) (argTy : String) (callee : String)
      (callArg : String)
  | foreignLink (linkName : String) (declName : String) (argTy : String)
  | ptrWrapperStruct (tyName : String)
  | dropImpl (tyName : String) (freeCall : String)
deriving DecidableEq

/-- Modelled from the spec: one emitted item of host-side (Swift) glue.
`cdeclTrampoline cdecl userFn paramTy argExpr` is
`@_cdecl(cdecl) func cdecl(_ arg: paramTy) ... userFn(arg: argExpr)`. -/
inductive SwiftItem
  | cdeclTrampoline (cdeclName : String) (userFn : String) (paramTy : String)
      (argExpr : String)
deriving DecidableEq

/-- Owning side of a declared opaque type name in the module, if declared. -/
def lookupOwner (m : BridgeModule) (tyName : String) : Option HostLang :=
  (m.typeDecls.find? (fun t => t.ty = tyName)).map
    (fun t => t.host_lang)

/-- Modelled from the spec: whether a declaration gated behind a crate
feature is emitted, per the opaque feature predicate of §6. -/
def fnEnabled (isEnabled : String → Bool) (f : BridgeFn) : Bool :=
  match f.cfgFeature with
  | none => true
  | some feat => isEnabled feat

/-- Modelled from the spec (§4.3) and the expected Rust tokens in
`codegen_tests.rs`: native-side glue for one boundary function. A
native-owned (Rust) argument is boxed and its raw address forwarded
(`Box::into_raw(Box::new(arg))`); a host-owned (Swift) argument is passed
as its `#[repr(C)]` pointer wrapper by value. -/
def rustItemsForFn (m : BridgeModule) (f : BridgeFn) : List RustItem :=
  match lookupOwner m f.argTypeName with
  | some HostLang.rust =>
      [ RustItem.publicFnCall f.name ("super::" ++ f.argTypeName)
          ("__swift_bridge__" ++ f.name)
          ("Box::into_raw(Box::new(arg)) as *mut super::" ++ f.argTypeName),
        RustItem.foreignLink ("__swift_bridge__$" ++ f.name)
          ("__swift_bridge__" ++ f.name)
          ("*mut super::" ++ f.argTypeName) ]
  | some HostLang.swift =>
      [ RustItem.publicFnCall f.name f.argTypeName
          ("__swift_bridge__" ++ f.name) "arg",
        RustItem.foreignLink ("__swift_bridge__$" ++ f.name)
          ("__swift_bridge__" ++ f.name) f.argTypeName ]
  | none => []

/-- Modelled from the spec (§4.3) and the expected Rust tokens in
`codegen_tests.rs`: native-side glue for one opaque type declaration. A
host-owned (Swift) type gets a raw-address wrapper struct, a `Drop` impl
calling the generated free trampoline, and the linkage declaration for that
trampoline, with both symbol forms derived as in `free_link_name` /
`free_func_name`; a native-owned (Rust) type needs no such glue. -/
def rustItemsForType (t : OpaqueForeignTypeDeclaration) : List RustItem :=
  match t.host_lang with
  | HostLang.rust => []
  | HostLang.swift =>
      [ RustItem.ptrWrapperStruct t.ty,
        RustItem.dropImpl t.ty (t.free_func_name ++ "(self.0)"),
        RustItem.foreignLink t.free_link_name t.free_func_name
          "*mut std::ffi::c_void" ]

/-- Modelled from the spec: the native-side (Rust) output of one
generation run. -/
def generateRust (m : BridgeModule) (isEnabled : String → Bool) :
    List RustItem :=
  ((m.typeDecls.map rustItemsForType).flatten) ++
    (((m.functions.filter (fnEnabled isEnabled)).map
      (rustItemsForFn m)).flatten)

/-- Modelled from the spec (§4.3) and the expected Swift code in
`codegen_tests.rs`: host-side glue for one boundary function. For a
native-owned argument the trampoline rebuilds the wrapper from the raw
address (`MyType(ptr: arg)`); for a host-owned argument it takes over the
retained reference (`Unmanaged<...>.fromOpaque(arg.ptr).takeRetainedValue()`). -/
def swiftItemsForFn (m : BridgeModule) (f : BridgeFn) : List SwiftItem :=
  match lookupOwner m f.argTypeName with
  | some HostLang.rust =>
      [ SwiftItem.cdeclTrampoline ("__swift_bridge__$" ++ f.name) f.name
          "UnsafeMutableRawPointer" (f.argTypeName ++ "(ptr: arg)") ]
  | some HostLang.swift =>
      [ SwiftItem.cdeclTrampoline ("__swift_bridge__$" ++ f.name) f.name
          "__private__PointerToSwiftType"
          ("Unmanaged<" ++ f.argTypeName ++
            ">.fromOpaque(arg.ptr).takeRetainedValue()") ]
  | none => []

/-- Modelled from the spec: the host-side (Swift) output of one
generation run. -/
def generateSwift (m : BridgeModule) (isEnabled : String → Bool) :
    List SwiftItem :=
  ((m.functions.filter (fnEnabled isEnabled)).map (swiftItemsForFn m)).flatten

/-- Modelled from the spec (§4.3, §6) and the expected headers in
`codegen_tests.rs`: the ABI header lines for one opaque type declaration —
one opaque typedef for a native-owned (Rust) type not marked
already-declared, nothing for a host-owned (Swift) type. -/
def headerForType (t : OpaqueForeignTypeDeclaration) : List String :=
  match t.host_lang with
  | HostLang.rust =>
      if t.already_declared then []
      else ["typedef struct " ++ t.ty ++ " " ++ t.ty ++ ";"]
  | HostLang.swift => []

/-- Modelled from the spec: the ABI header output of one generation run. -/
def generateCHeader (m : BridgeModule) (_isEnabled : String → Bool) :
    List String :=
  (m.typeDecls.map headerForType).flatten

/-- Modelled from the spec: one full generation run producing the three
coordinated artifacts. -/
def generateAll (m : BridgeModule) (isEnabled : String → Bool) :
    List RustItem × List SwiftItem × List String :=
  (generateRust m isEnabled, generateSwift m isEnabled,
    generateCHeader m isEnabled)

/-- The bridge module of concrete scenario 1: a native-owned opaque type
`MyType` and an `extern "Swift"` function `some_function(arg: MyType)`. -/
def scenario1Module : BridgeModule :=
  ⟨[⟨"MyType", HostLang.rust, false, none, []⟩],
    [⟨"some_function", "MyType", none⟩]⟩

/-- The bridge module of concrete scenario 2: a host-owned opaque type
`MyType` and an `extern "Swift"` function `some_function(arg: MyType)`. -/
def scenario2Module : BridgeModule :=
  ⟨[⟨"MyType", HostLang.swift, false, none, []⟩],
    [⟨"some_function", "MyType", none⟩]⟩

/-- A small module with a feature-gated function, used to exercise the
feature predicate in the determinism witness. -/
def featureGatedModule : BridgeModule :=
  ⟨[⟨"MyType", HostLang.rust, false, none, []⟩],
    [⟨"some_function", "MyType", some "feature1"⟩]⟩

/-- A concrete opaque declaration named `A` (sample data for witnesses). -/
def declA : TypeDeclaration :=
  TypeDeclaration.Opaque ⟨"A", HostLang.rust, false, none, []⟩

/-- A concrete opaque declaration named `B` (sample data for witnesses). -/
def declB : TypeDeclaration :=
  TypeDeclaration.Opaque ⟨"B", HostLang.swift, false, none, []⟩

/-- A concrete shared-struct declaration (sample data for counterexamples). -/
def declFooStruct : TypeDeclaration :=
  TypeDeclaration.Shared (SharedTypeDeclaration.Struct
    ⟨"Foo", StructSwiftRepr.structRepr, ["field0"], none, false⟩)

/-- A concrete registry already containing the name `A` (sample data). -/
def regA : TypeDeclarations := TypeDeclarations.empty.insert "A" declA

theorem insertList_cons (r : TypeDeclarations) (p : String × TypeDeclaration)
    (t : List (String × TypeDeclaration)) :
    insertList r (p :: t) = insertList (r.insert p.1 p.2) t := rfl

theorem option_get_bang_some (d : TypeDeclaration) :
    (some d).get! = d := rfl

theorem mapGet_head (l : List (String × TypeDeclaration)) (n : String)
    (d : TypeDeclaration) : mapGet ((n, d) :: l) n = some d := by
  simp [mapGet]

theorem mapGet_other (l : List (String × TypeDeclaration)) (n m : String)
    (d : TypeDeclaration) (h : n ≠ m) :
    mapGet ((n, d) :: l) m = mapGet l m := by
  simp [mapGet, h]

theorem insertList_order (l : List (String × TypeDeclaration)) :
    ∀ r : TypeDeclarations,
      (insertList r l).order = r.order ++ l.map Prod.fst := by
  induction l with
  | nil => intro r; simp [insertList]
  | cons p t ih =>
      intro r
      rw [insertList_cons, ih]
      simp [TypeDeclarations.insert]

theorem insertList_get_of_not_mem (l : List (String × TypeDeclaration))
    (n : String) (hn : n ∉ l.map Prod.fst) :
    ∀ r : TypeDeclarations,
      mapGet (insertList r l).decls n = mapGet r.decls n := by
  induction l with
  | nil => intro r; rfl
  | cons p t ih =>
      intro r
      simp only [List.map_cons, List.mem_cons, not_or] at hn
      rw [insertList_cons, ih hn.2]
      exact mapGet_other r.decls p.1 n p.2 (Ne.symm hn.1)

theorem typesAux (l : List (String × TypeDeclaration))
    (h : (l.map Prod.fst).Nodup) :
    ∀ r : TypeDeclarations,
      (l.map Prod.fst).map
          (fun m => (mapGet (insertList r l).decls m).get!) =
        l.map Prod.snd := by
  induction l with
  | nil => intro r; rfl
  | cons p t ih =>
      intro r
      simp only [List.map_cons, List.nodup_cons] at h ⊢
      congr 1
      · rw [insertList_cons, insertList_get_of_not_mem t p.1 h.1]
        rw [show (r.insert p.1 p.2).decls = (p.1, p.2) :: r.decls from rfl]
        rw [mapGet_head, option_get_bang_some]
      · rw [insertList_cons]
        exact ih h.2 (r.insert p.1 p.2)

/-- C1, counterexample: the registry's `insert` never fails with
`DuplicateTypeName` — at a concrete registry already containing `"A"`,
inserting `"A"` again returns a registry (the success path of the
spec-modelled `insert_checked`), while the spec's contract demands the
error path, so `insert` does not implement the checked contract. -/
theorem insert_never_signals_duplicate :
    ¬ ∀ (r : TypeDeclarations) (n : String) (d : TypeDeclaration),
        Except.ok (r.insert n d) = insert_checked r n d := by
  intro h
  have h2 := h regA "A" declB
  rw [show insert_checked regA "A" declB =
        Except.error InsertError.DuplicateTypeName from rfl] at h2
  exact Except.noConfusion h2

/-- C1 (amended): `insert` never fails; for any name, present or not, it
stores the declaration under that name (shadowing any previous binding, so
`get` returns the newly inserted declaration) and appends the name to the
order list. -/
theorem insert_stores_and_appends (r : TypeDeclarations) (n : String)
    (d : TypeDeclaration) :
    (r.insert n d).get n = some d ∧
    (r.insert n d).order = r.order ++ [n] :=
  ⟨mapGet_head r.decls n d, rfl⟩

/-- C2: for a registry built by a sequence of `insert` calls with
pairwise-distinct names, `types()` returns exactly the inserted
declarations, the i-th element of `types()` being the declaration passed to
the i-th insert. -/
theorem types_eq_insertion_order (l : List (String × TypeDeclaration))
    (h : (l.map Prod.fst).Nodup) :
    (buildRegistry l).types = l.map Prod.snd := by
  rw [buildRegistry, TypeDeclarations.types, insertList_order]
  rw [show TypeDeclarations.empty.order = [] from rfl, List.nil_append]
  exact typesAux l h TypeDeclarations.empty

/-- C2, witness: a two-element registry with distinct names `A`, `B`. -/
theorem types_eq_insertion_order_witness :
    (([("A", declA), ("B", declB)].map Prod.fst).Nodup) ∧
    (buildRegistry [("A", declA), ("B", declB)]).types =
      [("A", declA), ("B", declB)].map Prod.snd :=
  ⟨by decide, types_eq_insertion_order [("A", declA), ("B", declB)]
    (by decide)⟩

/-- C9: inserting a name that is already present silently replaces the old
declaration for lookup (`get` returns the newest one), appends the name to
the order list again, and `types()` then yields the latest declaration at
every position of the order list where that name occurs. -/
theorem insert_duplicate_silently_replaces (r : TypeDeclarations)
    (n : String) (d : TypeDeclaration) (_hpres : (r.get n).isSome = true) :
    (r.insert n d).get n = some d ∧
    (r.insert n d).order = r.order ++ [n] ∧
    (r.insert n d).types =
      (r.order ++ [n]).map
        (fun m => if m = n then d else (mapGet r.decls m).get!) := by
  refine ⟨mapGet_head r.decls n d, rfl, ?_⟩
  rw [TypeDeclarations.types]
  rw [show (r.insert n d).order = r.order ++ [n] from rfl]
  rw [show (r.insert n d).decls = (n, d) :: r.decls from rfl]
  congr 1
  funext m
  by_cases hm : n = m
  · subst hm
    rw [mapGet_head, option_get_bang_some, if_pos rfl]
  · rw [mapGet_other r.decls n m d hm, if_neg (Ne.symm hm)]

/-- C9, witness: the registry `regA` already binds `"A"`; re-inserting
`"A"` with `declB` replaces it. -/
theorem insert_duplicate_silently_replaces_witness :
    ((regA.get "A").isSome = true) ∧
    ((regA.insert "A" declB).get "A" = some declB ∧
     (regA.insert "A" declB).order = regA.order ++ ["A"] ∧
     (regA.insert "A" declB).types =
       (regA.order ++ ["A"]).map
         (fun m => if m = "A" then declB else (mapGet regA.decls m).get!)) :=
  ⟨rfl, insert_duplicate_silently_replaces regA "A" declB rfl⟩

/-- C5: the two generated destructor symbol forms are exactly
boundary-prefix ++ `$` ++ N ++ `$_free` (string-literal form) and
boundary-prefix ++ N ++ `__free` (bare-identifier form), both derived from
the same (prefix, type name) pair, and on the concrete type name `MyType`
they evaluate to the strings the codegen tests expect. -/
theorem free_names_from_prefix_pair (d : OpaqueForeignTypeDeclaration) :
    (d.free_link_name = mkFreeLinkName SWIFT_BRIDGE_PREFIX d.ty ∧
     d.free_func_name = mkFreeFuncName SWIFT_BRIDGE_PREFIX d.ty) ∧
    (OpaqueForeignTypeDeclaration.free_link_name
        ⟨"MyType", HostLang.swift, false, none, []⟩ =
        "__swift_bridge__$MyType$_free" ∧
     OpaqueForeignTypeDeclaration.free_func_name
        ⟨"MyType", HostLang.swift, false, none, []⟩ =
        "__swift_bridge__MyType__free") :=
  ⟨⟨rfl, rfl⟩, ⟨rfl, rfl⟩⟩

/-- C6, counterexample: the `BridgedType` built for a use site does not
always carry the use-site flags — for the concrete shared-struct
declaration `declFooStruct`, the results for (reference, mutable) =
(true, true) and (false, false) are identical, so the flags cannot be
recovered from the produced `BridgedType`. -/
theorem shared_struct_drops_use_site_flags :
    ¬ ∀ (d : TypeDeclaration) (r1 m1 r2 m2 : Bool),
        d.to_bridged_type r1 m1 = d.to_bridged_type r2 m2 →
          r1 = r2 ∧ m1 = m2 := by
  intro h
  have h2 := h declFooStruct true true false false rfl
  exact absurd h2.1 (by decide)

/-- C6 (amended): only opaque declarations carry the two use-site facts —
the `Opaque` arm of `to_bridged_type` attaches `is_reference` and
`is_mutable` to the declaration's own facts, while for shared struct and
shared enum declarations the produced `BridgedType` depends only on the
declaration and drops the flags. -/
theorem to_bridged_type_use_site_flags :
    (∀ (o : OpaqueForeignTypeDeclaration) (r m : Bool),
        (TypeDeclaration.Opaque o).to_bridged_type r m =
          BridgedType.Foreign (CustomBridgedType.Opaque
            ⟨o.ty, o.host_lang, r, m⟩)) ∧
    (∀ (s : SharedTypeDeclaration) (r1 m1 r2 m2 : Bool),
        (TypeDeclaration.Shared s).to_bridged_type r1 m1 =
          (TypeDeclaration.Shared s).to_bridged_type r2 m2) := by
  constructor
  · intro o r m
    rfl
  · intro s r1 m1 r2 m2
    cases s <;> rfl

/-- C7: `get_with_type` on a (possibly mutable) reference to a path type
strips the reference wrapper and returns the same lookup result as querying
the underlying declared name directly, and on a bare path type it uses the
path's rendered name as-is. -/
theorem get_with_type_strips_reference (r : TypeDeclarations) (m : Bool)
    (n : String) :
    r.get_with_type (RustType.reference m (RustType.path n)) =
      some (r.get n) ∧
    r.get_with_type (RustType.path n) = some (r.get n) :=
  ⟨rfl, rfl⟩

/-- C10: `get_with_type` is partial — every type expression that is neither
a reference nor a plain path (tuple, slice, raw pointer) hits the
`todo!()` arm, modelled as `none` (panic) rather than a normal
not-found return. -/
theorem get_with_type_panics_on_other_shapes (r : TypeDeclarations)
    (ty : RustType) (h : ty.isRefOrPath = false) :
    r.get_with_type ty = none := by
  cases ty with
  | reference m e => exact absurd h (by simp [RustType.isRefOrPath])
  | path n => exact absurd h (by simp [RustType.isRefOrPath])
  | tuple es => rfl
  | slice e => rfl
  | ptr m e => rfl

/-- C10, witness: the empty tuple type hits the panic arm. -/
theorem get_with_type_panics_on_other_shapes_witness :
    (RustType.tuple []).isRefOrPath = false ∧
    TypeDeclarations.empty.get_with_type (RustType.tuple []) = none :=
  ⟨rfl, get_with_type_panics_on_other_shapes TypeDeclarations.empty
    (RustType.tuple []) rfl⟩

/-- C3: for the scenario-1 module (native-owned opaque `MyType`, boundary
function `some_function(arg: MyType)`), generation emits (a) the native
public wrapper that boxes `arg` (`Box::into_raw(Box::new(arg))`) and
forwards the raw address to the boundary-prefixed external symbol, together
with that symbol's linkage declaration, (b) exactly one opaque header
typedef `typedef struct MyType MyType;`, and (c) the host trampoline that
rebuilds a `MyType` wrapper from the raw address before calling the user
function. -/
theorem scenario1_outputs :
    (RustItem.publicFnCall "some_function" "super::MyType"
        "__swift_bridge__some_function"
        "Box::into_raw(Box::new(arg)) as *mut super::MyType"
      ∈ generateRust scenario1Module (fun _ => false)) ∧
    (RustItem.foreignLink "__swift_bridge__$some_function"
        "__swift_bridge__some_function" "*mut super::MyType"
      ∈ generateRust scenario1Module (fun _ => false)) ∧
    ((generateCHeader scenario1Module (fun _ => false)).count
        "typedef struct MyType MyType;" = 1) ∧
    (SwiftItem.cdeclTrampoline "__swift_bridge__$some_function"
        "some_function" "UnsafeMutableRawPointer" "MyType(ptr: arg)"
      ∈ generateSwift scenario1Module (fun _ => false)) := by
  refine ⟨?_, ?_, ?_, ?_⟩ <;> decide

/-- C4: for the scenario-2 module (host-owned opaque `MyType`, boundary
function `some_function(arg: MyType)`), generation emits (a) the native
raw-address wrapper struct for `MyType` with a `Drop` impl calling the
generated free trampoline and the trampoline's linkage declaration, (b) an
empty ABI header (no per-type entry for `MyType`), and (c) the host
trampoline that takes over the existing retained reference
(`takeRetainedValue`) instead of creating a new managed reference. -/
theorem scenario2_outputs :
    (RustItem.ptrWrapperStruct "MyType"
      ∈ generateRust scenario2Module (fun _ => false)) ∧
    (RustItem.dropImpl "MyType" "__swift_bridge__MyType__free(self.0)"
      ∈ generateRust scenario2Module (fun _ => false)) ∧
    (RustItem.foreignLink "__swift_bridge__$MyType$_free"
        "__swift_bridge__MyType__free" "*mut std::ffi::c_void"
      ∈ generateRust scenario2Module (fun _ => false)) ∧
    (generateCHeader scenario2Module (fun _ => false) = []) ∧
    (SwiftItem.cdeclTrampoline "__swift_bridge__$some_function"
        "some_function" "__private__PointerToSwiftType"
        "Unmanaged<MyType>.fromOpaque(arg.ptr).takeRetainedValue()"
      ∈ generateSwift scenario2Module (fun _ => false)) := by
  refine ⟨?_, ?_, ?_, ?_, ?_⟩ <;> decide

/-- C8: generation is a pure function of the input module and the feature
predicate — a second run over the same module gives identical output, and
two extensionally equal feature predicates give identical output. -/
theorem generation_deterministic (m : BridgeModule) (f g : String → Bool)
    (h : ∀ s, f s = g s) :
    generateAll m f = generateAll m f ∧
    generateAll m f = generateAll m g := by
  have hfg : f = g := funext h
  exact ⟨rfl, by rw [hfg]⟩

/-- C8, witness: two runs on the feature-gated module with the
all-features-on predicate agree. -/
theorem generation_deterministic_witness :
    generateAll featureGatedModule (fun _ => true) =
      generateAll featureGatedModule (fun _ => true) ∧
    generateAll featureGatedModule (fun _ => true) =
      generateAll featureGatedModule (fun _ => true) :=
  generation_deterministic featureGatedModule (fun _ => true)
    (fun _ => true) (fun _ => rfl)
